import Mathlib

/-!
Verification of the whatsmeup chat backend core (backend/chat of the
repository) against its specification.  The Django models and view/consumer
handlers are shallowly embedded as pure Lean functions over an explicit
store state; database rows become list entries, autoincrement primary keys
become explicit counters, and timestamps become naturals.
-/

namespace WhatsMeUp

/-- accounts/models.py `User`: only the fields the dispatch core reads
(`id`, `is_online`, `last_seen`).  `last_seen` is nullable. -/
structure User where
  id : Nat
  is_online : Bool
  last_seen : Option Nat
deriving Repr, DecidableEq

/-- chat/models.py `Conversation`: participant ids, group flag, activity
timestamp. -/
structure Conversation where
  id : Nat
  participants : List Nat
  is_group : Bool
  updated_at : Nat
deriving Repr, DecidableEq

/-- chat/models.py `Message`: self-referencing relations are stored as ids
(`reply_to`, `parent_message`, `forwarded_from`), the attachment file is an
opaque name, thumbnails are outside the modelled core. -/
structure Message where
  id : Nat
  conversation : Nat
  sender : Nat
  content : String
  timestamp : Nat
  is_read : Bool
  read_by : List Nat
  reply_to : Option Nat
  parent_message : Option Nat
  forwarded_from : Option Nat
  forwarded_by : Option Nat
  is_forwarded : Bool
  attachment : Option String
  attachment_type : Option String
deriving Repr, DecidableEq

/-- chat/models.py `Notification`: recipient, optional sender, type tag and
the related object ids.  The free-form text and JSON payload are not needed
by the properties below. -/
structure Notification where
  id : Nat
  recipient : Nat
  sender : Option Nat
  notification_type : String
  related_message : Option Nat
  related_conversation : Option Nat
deriving Repr, DecidableEq

/-- The persistent store plus the set of open presence connections
(one list entry per open `PresenceConsumer` socket, holding the user id). -/
structure ChatState where
  users : List User
  conversations : List Conversation
  messages : List Message
  notifications : List Notification
  connections : List Nat
  nextMessageId : Nat
  nextNotificationId : Nat
deriving Repr, DecidableEq

/-- `Message.mark_as_read` (chat/models.py lines 136-145): if the user is
not yet in `read_by`, add them; then, if every conversation participant
other than the sender is in the updated `read_by`, set `is_read`.
`parts` is the participant list of the message's conversation. -/
def Message.mark_as_read (m : Message) (parts : List Nat) (u : Nat) : Message :=
  if u ∈ m.read_by then m
  else if ∀ p ∈ parts, p ≠ m.sender → p ∈ m.read_by ++ [u] then
    { m with read_by := m.read_by ++ [u], is_read := true }
  else
    { m with read_by := m.read_by ++ [u] }

/-- `ChatConsumer.mark_message_read` (chat/consumers.py lines 145-154): the
read-receipt handler only adds the user to `read_by` and saves; it never
recomputes `is_read`. -/
def Message.mark_message_read (m : Message) (u : Nat) : Message :=
  if u ∈ m.read_by then m else { m with read_by := m.read_by ++ [u] }

/-- The read-state invariant of spec section 8: `is_read` holds exactly when
every participant of the message's conversation other than the sender is in
`read_by`. -/
def readInv (parts : List Nat) (m : Message) : Prop :=
  m.is_read = true ↔ ∀ p ∈ parts, p ≠ m.sender → p ∈ m.read_by

instance (parts : List Nat) (m : Message) : Decidable (readInv parts m) := by
  unfold readInv; infer_instance

/-- The per-message update performed by `MessageListView.get_queryset`
(chat/views.py lines 59-63): the bulk queryset
`filter(conversation, is_read=False).exclude(sender=user).update(is_read=True)`
sets `is_read` on matching rows and touches nothing else. -/
def listMarkFn (cid u : Nat) (m : Message) : Message :=
  if m.conversation = cid ∧ m.is_read = false ∧ m.sender ≠ u then
    { m with is_read := true }
  else m

/-- `Conversation.objects.get(id=cid, participants=u)` /
`get_object_or_404(Conversation, id=cid, participants=user)`. -/
def findConversation (s : ChatState) (cid u : Nat) : Option Conversation :=
  s.conversations.find? (fun c => c.id == cid && decide (u ∈ c.participants))

/-- `Message.objects.get(id=mid)` on the global message table. -/
def findMessage (s : ChatState) (mid : Nat) : Option Message :=
  s.messages.find? (fun m => m.id == mid)

/-- `MessageViewSet.get_object` for a message: the queryset is restricted to
`Message.objects.filter(conversation__participants=request.user)`, so the
lookup succeeds only when the requester participates in the message's
conversation. -/
def findUserMessage (s : ChatState) (u mid : Nat) : Option Message :=
  s.messages.find? (fun m =>
    m.id == mid &&
      match s.conversations.find? (fun c => c.id == m.conversation) with
      | some c => decide (u ∈ c.participants)
      | none => false)

/-- `MessageListView.get_queryset` (chat/views.py lines 46-69): resolve the
conversation (404 when absent or the requester is not a participant), bulk
mark unread messages of other senders as read, and return the top-level
messages of the conversation. -/
def messageListGetQueryset (s : ChatState) (u cid : Nat) :
    Option (ChatState × List Message) :=
  match findConversation s cid u with
  | none => none
  | some conv =>
    let msgs := s.messages.map (listMarkFn conv.id u)
    some ({ s with messages := msgs },
      msgs.filter (fun m => m.conversation == conv.id && m.parent_message == none))

/-- `Message.set_attachment_type` (chat/models.py lines 91-108): classify an
attachment by the lower-cased filename suffix. -/
def detectAttachmentType (name : String) : String :=
  let f := name.toLower
  if f.endsWith ".jpg" || f.endsWith ".jpeg" || f.endsWith ".png" ||
      f.endsWith ".gif" || f.endsWith ".webp" || f.endsWith ".svg" then "image"
  else if f.endsWith ".mp3" || f.endsWith ".wav" || f.endsWith ".ogg" ||
      f.endsWith ".m4a" then "audio"
  else if f.endsWith ".mp4" || f.endsWith ".webm" || f.endsWith ".mov" ||
      f.endsWith ".avi" || f.endsWith ".mkv" then "video"
  else if f.endsWith ".pdf" || f.endsWith ".doc" || f.endsWith ".docx" ||
      f.endsWith ".xls" || f.endsWith ".xlsx" || f.endsWith ".ppt" ||
      f.endsWith ".pptx" || f.endsWith ".txt" then "document"
  else "other"

/-- The notification fanout loop (`for participant in
conversation.participants.exclude(id=request.user.id): Notification.objects.create(...)`):
one row per recipient, primary keys assigned sequentially from `base`. -/
def buildNotifs (base u : Nat) (ntype : String) (rmid rcid : Option Nat) :
    List Nat → List Notification
  | [] => []
  | p :: rest =>
    { id := base, recipient := p, sender := some u, notification_type := ntype,
      related_message := rmid, related_conversation := rcid } ::
      buildNotifs (base + 1) u ntype rmid rcid rest

/-- The HTTP outcome of `MessageViewSet.create`. -/
inductive CreateResult where
  | badRequest
  | notFound
  | created (m : Message)
deriving Repr, DecidableEq

/-- The tail of `MessageViewSet.create` (chat/views.py lines 394-434) after
validation: create the message row (attachment absent in the modelled
request), bump the conversation's `updated_at`, and create one notification
per conversation participant other than the sender, typed `thread_reply`
when a parent message is set and `message` otherwise. -/
def createCore (s : ChatState) (u : Nat) (conv : Conversation) (content : String)
    (rt pm : Option Nat) (now : Nat) : ChatState × Message :=
  let msg : Message :=
    { id := s.nextMessageId, conversation := conv.id, sender := u,
      content := content, timestamp := now, is_read := false, read_by := [],
      reply_to := rt, parent_message := pm, forwarded_from := none,
      forwarded_by := none, is_forwarded := false, attachment := none,
      attachment_type := none }
  let recips := conv.participants.filter (fun p => p ≠ u)
  let nn := buildNotifs s.nextNotificationId u
    (if pm.isSome then "thread_reply" else "message") (some msg.id) (some conv.id)
    recips
  ({ s with
      messages := s.messages ++ [msg],
      conversations := s.conversations.map
        (fun c => if c.id = conv.id then { c with updated_at := now } else c),
      notifications := s.notifications ++ nn,
      nextMessageId := s.nextMessageId + 1,
      nextNotificationId := s.nextNotificationId + recips.length }, msg)

/-- `MessageViewSet.create` (chat/views.py lines 346-434): 400 without a
conversation id, 404 when the conversation does not exist for the requester;
a `reply_to` or `parent_message` id that resolves to no message is silently
dropped (`except Message.DoesNotExist: pass`); a parent message from a
different conversation is a 400; otherwise the message is created with the
referenced parent as-is and notifications are fanned out. -/
def messageCreate (s : ChatState) (u : Nat) (conversation_id : Option Nat)
    (content : String) (reply_to_id parent_message_id : Option Nat) (now : Nat) :
    ChatState × CreateResult :=
  match conversation_id with
  | none => (s, .badRequest)
  | some cid =>
    match findConversation s cid u with
    | none => (s, .notFound)
    | some conv =>
      let rt : Option Nat :=
        match reply_to_id with
        | none => none
        | some rid =>
          match findMessage s rid with
          | none => none
          | some rm => some rm.id
      match parent_message_id with
      | none =>
        let r := createCore s u conv content rt none now
        (r.1, .created r.2)
      | some pid =>
        match findMessage s pid with
        | none =>
          let r := createCore s u conv content rt none now
          (r.1, .created r.2)
        | some pm =>
          if pm.conversation ≠ conv.id then (s, .badRequest)
          else
            let r := createCore s u conv content rt (some pm.id) now
            (r.1, .created r.2)

/-- `ChatConsumer.save_message` (chat/consumers.py lines 126-143): resolve
sender, conversation and the optional reply target with bare
`objects.get` calls — a missing row raises an uncaught `DoesNotExist`,
modelled as `none`, and no message is created.  On success the message row
is created; no notification is written and the conversation timestamp is
not bumped. -/
def wsSaveMessage (s : ChatState) (sender_id conversation_id : Nat)
    (content : String) (reply_to : Option Nat) (attachment : Option String)
    (now : Nat) : Option (ChatState × Message) :=
  match s.users.find? (fun v => v.id == sender_id) with
  | none => none
  | some _ =>
    match s.conversations.find? (fun c => c.id == conversation_id) with
    | none => none
    | some conv =>
      let rto : Option (Option Nat) :=
        match reply_to with
        | none => some none
        | some rid =>
          match findMessage s rid with
          | none => none
          | some rm => some (some rm.id)
      match rto with
      | none => none
      | some rt =>
        let msg : Message :=
          { id := s.nextMessageId, conversation := conv.id, sender := sender_id,
            content := content, timestamp := now, is_read := false, read_by := [],
            reply_to := rt, parent_message := none, forwarded_from := none,
            forwarded_by := none, is_forwarded := false, attachment := attachment,
            attachment_type := attachment.map detectAttachmentType }
        some ({ s with messages := s.messages ++ [msg],
                       nextMessageId := s.nextMessageId + 1 }, msg)

/-- `Message.forward_to_conversation` (chat/models.py lines 147-159): build a
fresh message in the target conversation that copies the content and
attachment of the origin, points `forwarded_from` at it, and leaves
`reply_to`/`parent_message` at their defaults.  The origin row is not
touched. -/
def Message.forward_to_conversation (m : Message) (u : Nat) (conv : Conversation)
    (newId ts : Nat) : Message :=
  { id := newId, conversation := conv.id, sender := u, content := m.content,
    timestamp := ts, is_read := false, read_by := [], reply_to := none,
    parent_message := none, forwarded_from := some m.id, forwarded_by := some u,
    is_forwarded := true, attachment := m.attachment,
    attachment_type := m.attachment_type }

/-- The HTTP outcome of `MessageViewSet.forward`.  `forbidden` (HTTP 403) is
in the outcome space of the framework but, as proved below, never produced
by this endpoint. -/
inductive ForwardResult where
  | badRequest
  | notFound
  | forbidden
  | created (m : Message)
deriving Repr, DecidableEq

/-- `MessageViewSet.forward` (chat/views.py lines 457-504): resolve the
origin message through the requester-scoped queryset (404 on failure), 400
without a target conversation id, 404 when no conversation with that id has
the requester as participant, else create the forwarded copy and fan out
one `forwarded_message` notification per target participant other than the
requester. -/
def forwardView (s : ChatState) (u mid : Nat) (target_conversation_id : Option Nat)
    (now : Nat) : ChatState × ForwardResult :=
  match findUserMessage s u mid with
  | none => (s, .notFound)
  | some original =>
    match target_conversation_id with
    | none => (s, .badRequest)
    | some tcid =>
      match findConversation s tcid u with
      | none => (s, .notFound)
      | some target =>
        let fm := original.forward_to_conversation u target s.nextMessageId now
        let recips := target.participants.filter (fun p => p ≠ u)
        let nn := buildNotifs s.nextNotificationId u "forwarded_message"
          (some fm.id) (some target.id) recips
        ({ s with
            messages := s.messages ++ [fm],
            notifications := s.notifications ++ nn,
            nextMessageId := s.nextMessageId + 1,
            nextNotificationId := s.nextNotificationId + recips.length },
          .created fm)

/-- Timestamp order used by `order_by('timestamp')`. -/
def tsLE (a b : Message) : Prop := a.timestamp ≤ b.timestamp

instance : DecidableRel tsLE := fun a b => Nat.decLe a.timestamp b.timestamp

instance : IsTotal Message tsLE := ⟨fun a b => Nat.le_total a.timestamp b.timestamp⟩

instance : IsTrans Message tsLE := ⟨fun _ _ _ h1 h2 => Nat.le_trans h1 h2⟩

/-- `order_by('timestamp')` on a query result. -/
def orderByTimestamp (l : List Message) : List Message := List.insertionSort tsLE l

/-- `Message.get_thread_messages` (chat/models.py lines 161-173): for a
thread reply, all messages whose id is the parent's or whose parent is the
parent (root plus siblings); for a message without a parent, only the
messages whose parent is this message — the message itself is not part of
the filter. -/
def Message.get_thread_messages (m : Message) (s : ChatState) : List Message :=
  match m.parent_message with
  | some pid =>
    orderByTimestamp (s.messages.filter
      (fun x => x.id = pid ∨ x.parent_message = some pid))
  | none =>
    orderByTimestamp (s.messages.filter (fun x => x.parent_message = some m.id))

/-- The membership predicate realised by `get_thread_messages`. -/
def threadPred (m x : Message) : Prop :=
  match m.parent_message with
  | some pid => x.id = pid ∨ x.parent_message = some pid
  | none => x.parent_message = some m.id

/-- The row update of `PresenceConsumer.set_user_offline`
(chat/consumers.py lines 258-264) applied to one user record. -/
def offlineFn (uid now : Nat) (v : User) : User :=
  if v.id = uid then { v with is_online := false, last_seen := some now } else v

/-- The row update of `PresenceConsumer.set_user_online`
(chat/consumers.py lines 250-256) applied to one user record. -/
def onlineFn (uid now : Nat) (v : User) : User :=
  if v.id = uid then { v with is_online := true, last_seen := some now } else v

/-- `PresenceConsumer.set_user_offline`: `User.objects.get(id=user_id)`
(uncaught `DoesNotExist` when absent, modelled as `none`), then
`is_online = False`, `last_seen = now`, save. -/
def set_user_offline (s : ChatState) (uid now : Nat) : Option ChatState :=
  match s.users.find? (fun v => v.id == uid) with
  | none => none
  | some _ => some { s with users := s.users.map (offlineFn uid now) }

/-- `PresenceConsumer.set_user_online`: same lookup, then `is_online = True`,
`last_seen = now`, save. -/
def set_user_online (s : ChatState) (uid now : Nat) : Option ChatState :=
  match s.users.find? (fun v => v.id == uid) with
  | none => none
  | some _ => some { s with users := s.users.map (onlineFn uid now) }

/-- `PresenceConsumer.connect` (chat/consumers.py lines 158-189): register
the socket (one more open connection for the user) and mark the user
online. -/
def presenceConnect (s : ChatState) (uid now : Nat) : Option ChatState :=
  set_user_online { s with connections := uid :: s.connections } uid now

/-- `PresenceConsumer.disconnect` (chat/consumers.py lines 191-216): the
handler unconditionally calls `set_user_offline` — without consulting any
connection count — then releases the socket's group registrations (one open
connection removed). -/
def presenceDisconnect (s : ChatState) (uid now : Nat) : Option ChatState :=
  set_user_offline { s with connections := s.connections.erase uid } uid now

/-- The stored online flag of a user. -/
def onlineOf (s : ChatState) (uid : Nat) : Option Bool :=
  (s.users.find? (fun v => v.id == uid)).map User.is_online

/-- The stored last-seen stamp of a user. -/
def lastSeenOf (s : ChatState) (uid : Nat) : Option (Option Nat) :=
  (s.users.find? (fun v => v.id == uid)).map User.last_seen

/-- Helper projecting the created message's parent id out of a create
result. -/
def createdParent : CreateResult → Option Nat
  | .created m => m.parent_message
  | _ => none

/-- Helper: does a create result hold a created message. -/
def isCreated : CreateResult → Bool
  | .created _ => true
  | _ => false

/-! Concrete store used to evaluate the operations: three users, three
two-party conversations, one root message and one thread reply. -/

/-- A concrete message used to evaluate the read-state operations: sender 1
in conversation 1, unread by anyone. -/
def mA : Message :=
  { id := 1, conversation := 1, sender := 1, content := "", timestamp := 0,
    is_read := false, read_by := [], reply_to := none, parent_message := none,
    forwarded_from := none, forwarded_by := none, is_forwarded := false,
    attachment := none, attachment_type := none }

/-- Concrete user 1. -/
def u1 : User := { id := 1, is_online := true, last_seen := some 0 }

/-- Concrete user 2. -/
def u2 : User := { id := 2, is_online := true, last_seen := some 0 }

/-- Concrete user 3. -/
def u3 : User := { id := 3, is_online := false, last_seen := none }

/-- Concrete conversation between users 1 and 2. -/
def c1 : Conversation :=
  { id := 1, participants := [1, 2], is_group := false, updated_at := 0 }

/-- Concrete conversation between users 2 and 3. -/
def c2 : Conversation :=
  { id := 2, participants := [2, 3], is_group := false, updated_at := 0 }

/-- Concrete conversation between users 1 and 3. -/
def c3 : Conversation :=
  { id := 3, participants := [1, 3], is_group := false, updated_at := 0 }

/-- A root message from user 1 in conversation 1. -/
def m10 : Message :=
  { id := 10, conversation := 1, sender := 1, content := "", timestamp := 0,
    is_read := false, read_by := [], reply_to := none, parent_message := none,
    forwarded_from := none, forwarded_by := none, is_forwarded := false,
    attachment := none, attachment_type := none }

/-- A thread reply from user 2 to `m10`. -/
def m11 : Message :=
  { m10 with id := 11, sender := 2, timestamp := 1, parent_message := some 10 }

/-- The concrete base store. -/
def SB : ChatState :=
  { users := [u1, u2, u3], conversations := [c1, c2, c3],
    messages := [m10, m11], notifications := [], connections := [],
    nextMessageId := 12, nextNotificationId := 1 }

/-- The base store after user 2 lists conversation 1. -/
def SBl : ChatState := { SB with messages := SB.messages.map (listMarkFn 1 2) }

/-- The message list returned to user 2 for conversation 1. -/
def RBl : List Message := [{ m10 with is_read := true }]

/-- The base store with two open presence connections for user 1. -/
def SBp : ChatState := { SB with connections := [1, 1] }

/-- The message produced by a WebSocket save of an empty message from user 1
in conversation 1 of the base store. -/
def MW : Message :=
  { id := 12, conversation := 1, sender := 1, content := "", timestamp := 9,
    is_read := false, read_by := [], reply_to := none, parent_message := none,
    forwarded_from := none, forwarded_by := none, is_forwarded := false,
    attachment := none, attachment_type := none }

/-- The base store after that WebSocket save. -/
def SW : ChatState :=
  { SB with messages := SB.messages ++ [MW], nextMessageId := 13 }

/-! Theorems. -/

/-- Claim C1 (counterexample): the read-state equivalence does not hold after
every markRead path.  The WebSocket read-receipt handler adds user 2 to
`read_by` of a message sent by 1 in a two-party conversation, after which
`read_by` covers all non-sender participants yet `is_read` is still false. -/
theorem c1_counterexample : ¬ readInv [1, 2] (mA.mark_message_read 2) := by
  decide

/-- Claim C1 (amended): the equivalence `is_read = read_by covers all
non-sender participants` is preserved by the model method
`Message.mark_as_read` — it holds after the call whenever it held before.
The WebSocket read-receipt handler and the message-list bulk update do not
maintain it. -/
theorem mark_as_read_preserves_readInv (parts : List Nat) (m : Message) (u : Nat)
    (h : readInv parts m) : readInv parts (m.mark_as_read parts u) := by
  unfold Message.mark_as_read
  split
  · exact h
  · split
    · next hall =>
      constructor
      · intro _; exact hall
      · intro _; rfl
    · next hnall =>
      constructor
      · intro hr p hp hps
        exact List.mem_append_left _ (h.mp hr p hp hps)
      · intro hcond
        exact absurd hcond hnall

/-- Witness for the C1 theorem at a concrete state where the invariant holds
before the call. -/
theorem mark_as_read_preserves_readInv_witness :
    readInv [1, 2] (mA.mark_as_read [1, 2] 2) :=
  mark_as_read_preserves_readInv [1, 2] mA 2 (by decide)

/-- Claim C9: `Message.mark_as_read` is idempotent — a second call with the
same user leaves the message (its `read_by` set and `is_read` flag) exactly
as after the first call. -/
theorem mark_as_read_idempotent (parts : List Nat) (m : Message) (u : Nat) :
    (m.mark_as_read parts u).mark_as_read parts u = m.mark_as_read parts u := by
  have hmem : u ∈ (m.mark_as_read parts u).read_by := by
    unfold Message.mark_as_read
    split
    · next h => exact h
    · split <;> simp
  conv_lhs => rw [Message.mark_as_read]
  rw [if_pos hmem]

/-- Claim C10: listing a conversation's messages as user `u` maps the bulk
update `listMarkFn` over the store — every message of the conversation whose
sender is not `u` and whose `is_read` was false gets `is_read := true`, and
no message's `read_by` set changes (`u` is never added to `read_by`). -/
theorem message_list_marks_read (s : ChatState) (u cid : Nat) (s2 : ChatState)
    (res : List Message)
    (h : messageListGetQueryset s u cid = some (s2, res)) :
    s2.messages = s.messages.map (listMarkFn cid u) ∧
    (∀ m : Message, (listMarkFn cid u m).read_by = m.read_by) ∧
    (∀ m : Message, m.conversation = cid → m.sender ≠ u → m.is_read = false →
      (listMarkFn cid u m).is_read = true) := by
  refine ⟨?_, ?_, ?_⟩
  · rcases hf : findConversation s cid u with _ | conv
    · rw [messageListGetQueryset, hf] at h
      cases h
    · have hid : conv.id = cid := by
        have h2 := hf
        unfold findConversation at h2
        have hp := List.find?_some h2
        simp only [Bool.and_eq_true, beq_iff_eq, decide_eq_true_eq] at hp
        exact hp.1
      rw [messageListGetQueryset, hf] at h
      simp only [Option.some.injEq, Prod.mk.injEq] at h
      rw [← h.1, hid]
  · intro m
    unfold listMarkFn
    split <;> rfl
  · intro m hc hs hr
    unfold listMarkFn
    rw [if_pos ⟨hc, hr, hs⟩]

/-- Witness for the C10 theorem: user 2 lists conversation 1 of the base
store; the root message from user 1 flips to read with `read_by` untouched. -/
theorem message_list_marks_read_witness :
    SBl.messages = SB.messages.map (listMarkFn 1 2) ∧
    (∀ m : Message, (listMarkFn 1 2 m).read_by = m.read_by) ∧
    (∀ m : Message, m.conversation = 1 → m.sender ≠ 2 → m.is_read = false →
      (listMarkFn 1 2 m).is_read = true) :=
  message_list_marks_read SB 2 1 SBl RBl (by decide)

/-- Every fanout batch lists exactly the given recipients, in order. -/
theorem buildNotifs_map_recipient (u : Nat) (ntype : String) (rmid rcid : Option Nat) :
    ∀ (l : List Nat) (base : Nat),
      (buildNotifs base u ntype rmid rcid l).map Notification.recipient = l := by
  intro l
  induction l with
  | nil => intro _; rfl
  | cons p rest ih =>
    intro base
    simp only [buildNotifs, List.map_cons, ih]

/-- Claim C3 (counterexample): replying to the thread reply `m11` (whose own
parent is `m10`) stores `parent_message = 11`, and message 11 itself has the
non-null parent 10 — the parent is not normalized to the root, and thread
depth 2 arises. -/
theorem c3_counterexample :
    createdParent (messageCreate SB 1 (some 1) "" none (some 11) 9).2 = some 11 ∧
    (findMessage SB 11).bind Message.parent_message = some 10 := by decide

/-- Claim C3 (amended): `MessageViewSet.create` stores the referenced
`parent_message` unchanged whenever it resolves to a message of the same
conversation — there is no normalization to the thread root, so replying to
a thread reply produces a parent that itself has a parent. -/
theorem create_parent_not_normalized (s : ChatState) (u : Nat)
    (conv : Conversation) (content : String) (rid : Option Nat) (pid now : Nat)
    (pm : Message)
    (hconv : findConversation s conv.id u = some conv)
    (hpm : findMessage s pid = some pm)
    (hsame : pm.conversation = conv.id) :
    ∃ msg, (messageCreate s u (some conv.id) content rid (some pid) now).2 =
        .created msg ∧ msg.parent_message = some pm.id := by
  simp only [messageCreate, hconv, hpm]
  rw [if_neg (fun hne => hne hsame)]
  exact ⟨_, rfl, by simp [createCore]⟩

/-- Witness for the C3 theorem at the depth-two input of the
counterexample. -/
theorem create_parent_not_normalized_witness :
    ∃ msg, (messageCreate SB 1 (some c1.id) "" none (some 11) 9).2 =
        .created msg ∧ msg.parent_message = some m11.id :=
  create_parent_not_normalized SB 1 c1 "" none 11 9 m11 (by decide) (by decide)
    (by decide)

/-- Claim C8 (counterexample): a create whose `reply_to` references the
non-existent message 999 does not fail — the reference is silently dropped
and the message is created anyway. -/
theorem c8_counterexample :
    findMessage SB 999 = none ∧
    isCreated (messageCreate SB 1 (some 1) "" (some 999) none 9).2 = true := by
  decide

/-- Claim C8 (amended): a missing conversation makes `MessageViewSet.create`
fail with 404 leaving the store untouched, but missing `reply_to` or
`parent_message` references are silently dropped and the message is created
anyway; on the WebSocket path a missing sender, conversation or reply
target aborts the handler with no message created. -/
theorem create_missing_entity_behavior :
    (∀ (s : ChatState) (u cid : Nat) (content : String) (rid pid : Option Nat)
        (now : Nat), (∀ c ∈ s.conversations, c.id ≠ cid) →
      messageCreate s u (some cid) content rid pid now = (s, .notFound)) ∧
    (∀ (s : ChatState) (u : Nat) (conv : Conversation) (content : String)
        (rid pid now : Nat),
      findConversation s conv.id u = some conv →
      findMessage s rid = none → findMessage s pid = none →
      ∃ msg, messageCreate s u (some conv.id) content (some rid) (some pid) now =
          ((createCore s u conv content none none now).1, .created msg) ∧
        msg.reply_to = none ∧ msg.parent_message = none) ∧
    (∀ (s : ChatState) (sid cid : Nat) (content : String) (rto : Option Nat)
        (att : Option String) (now : Nat),
      s.users.find? (fun v => v.id == sid) = none →
      wsSaveMessage s sid cid content rto att now = none) ∧
    (∀ (s : ChatState) (sid cid : Nat) (content : String) (rto : Option Nat)
        (att : Option String) (now : Nat),
      s.conversations.find? (fun c => c.id == cid) = none →
      wsSaveMessage s sid cid content rto att now = none) ∧
    (∀ (s : ChatState) (sid cid rid : Nat) (content : String)
        (att : Option String) (now : Nat),
      findMessage s rid = none →
      wsSaveMessage s sid cid content (some rid) att now = none) := by
  refine ⟨?_, ?_, ?_, ?_, ?_⟩
  · intro s u cid content rid pid now h
    have hf : findConversation s cid u = none := by
      unfold findConversation
      rw [List.find?_eq_none]
      intro c hc
      simp only [Bool.and_eq_true, beq_iff_eq, decide_eq_true_eq, not_and]
      intro hid
      exact absurd hid (h c hc)
    simp only [messageCreate, hf]
  · intro s u conv content rid pid now hconv hrid hpid
    refine ⟨(createCore s u conv content none none now).2, ?_, ?_, ?_⟩
    · simp only [messageCreate, hconv, hrid, hpid]
    · simp [createCore]
    · simp [createCore]
  · intro s sid cid content rto att now h
    simp only [wsSaveMessage, h]
  · intro s sid cid content rto att now h
    simp only [wsSaveMessage, h]
    cases s.users.find? (fun v => v.id == sid) <;> rfl
  · intro s sid cid rid content att now h
    simp only [wsSaveMessage, findMessage] at h ⊢
    simp only [h]
    cases s.users.find? (fun v => v.id == sid) <;>
      cases s.conversations.find? (fun c => c.id == cid) <;> rfl

/-- Witness for the C8 theorem: every branch evaluated on the base store —
missing conversation 99 gives 404; missing reply 999 and parent 998 still
create; WebSocket saves abort on missing sender 99, conversation 77 and
reply 999. -/
theorem create_missing_entity_behavior_witness :
    messageCreate SB 1 (some 99) "" none none 9 = (SB, .notFound) ∧
    (∃ msg, messageCreate SB 1 (some c1.id) "" (some 999) (some 998) 9 =
        ((createCore SB 1 c1 "" none none 9).1, .created msg) ∧
      msg.reply_to = none ∧ msg.parent_message = none) ∧
    wsSaveMessage SB 99 1 "" none none 9 = none ∧
    wsSaveMessage SB 1 77 "" none none 9 = none ∧
    wsSaveMessage SB 1 1 "" (some 999) none 9 = none :=
  ⟨create_missing_entity_behavior.1 SB 1 99 "" none none 9 (by decide),
   create_missing_entity_behavior.2.1 SB 1 c1 "" 999 998 9 (by decide) (by decide)
     (by decide),
   create_missing_entity_behavior.2.2.1 SB 99 1 "" none none 9 (by decide),
   create_missing_entity_behavior.2.2.2.1 SB 1 77 "" none none 9 (by decide),
   create_missing_entity_behavior.2.2.2.2 SB 1 1 999 "" none 9 (by decide)⟩

/-- A fanout batch has one fewer entry than the nodup participant list it
excludes the actor from. -/
theorem length_filter_ne_of_nodup (u : Nat) :
    ∀ (l : List Nat), l.Nodup → u ∈ l →
      (l.filter (fun p => p ≠ u)).length = l.length - 1 := by
  intro l
  induction l with
  | nil => intro _ h; exact absurd h (List.not_mem_nil u)
  | cons a t ih =>
    intro hnd hm
    rcases List.mem_cons.mp hm with rfl | hmt
    · have hnotin : u ∉ t := (List.nodup_cons.mp hnd).1
      have hft : t.filter (fun p => p ≠ u) = t := by
        apply List.filter_eq_self.mpr
        intro b hb
        simp only [decide_eq_true_eq]
        rintro rfl
        exact hnotin hb
      rw [List.filter_cons, if_neg (by simp), hft, List.length_cons]
      omega
    · have hau : a ≠ u := by
        rintro rfl
        exact (List.nodup_cons.mp hnd).1 hmt
      have hlen := ih (List.nodup_cons.mp hnd).2 hmt
      have hpos := List.length_pos_of_mem hmt
      rw [List.filter_cons, if_pos (by simpa using hau)]
      simp only [List.length_cons, hlen]
      omega

/-- Fanout batch length equals the recipient count. -/
theorem buildNotifs_length (base u : Nat) (ntype : String) (rmid rcid : Option Nat)
    (l : List Nat) : (buildNotifs base u ntype rmid rcid l).length = l.length := by
  have h := buildNotifs_map_recipient u ntype rmid rcid l base
  calc (buildNotifs base u ntype rmid rcid l).length
      = ((buildNotifs base u ntype rmid rcid l).map Notification.recipient).length :=
        (List.length_map _ _).symm
    _ = l.length := by rw [h]

/-- No notification in a fanout batch addresses a user outside the recipient
list. -/
theorem buildNotifs_recipient_ne (base u : Nat) (ntype : String)
    (rmid rcid : Option Nat) (l : List Nat) (hl : ∀ p ∈ l, p ≠ u) :
    ∀ n ∈ buildNotifs base u ntype rmid rcid l, n.recipient ≠ u := by
  intro n hn
  have hmem : n.recipient ∈
      (buildNotifs base u ntype rmid rcid l).map Notification.recipient :=
    List.mem_map_of_mem _ hn
  rw [buildNotifs_map_recipient] at hmem
  exact hl _ hmem

/-- The three fanout facts for one batch over a nodup participant list that
contains the actor. -/
theorem fanout_spec (base u : Nat) (ntype : String) (rmid rcid : Option Nat)
    (P : List Nat) (hnd : P.Nodup) (hu : u ∈ P) :
    (buildNotifs base u ntype rmid rcid (P.filter (fun p => p ≠ u))).map
        Notification.recipient = P.filter (fun p => p ≠ u) ∧
    (buildNotifs base u ntype rmid rcid (P.filter (fun p => p ≠ u))).length
        = P.length - 1 ∧
    ∀ n ∈ buildNotifs base u ntype rmid rcid (P.filter (fun p => p ≠ u)),
      n.recipient ≠ u := by
  refine ⟨buildNotifs_map_recipient u ntype rmid rcid _ base, ?_, ?_⟩
  · rw [buildNotifs_length, length_filter_ne_of_nodup u P hnd hu]
  · apply buildNotifs_recipient_ne
    intro p hp
    have hmem := List.mem_filter.mp hp
    simpa using hmem.2

/-- A successful `findConversation` hands back a conversation the user
participates in. -/
theorem findConversation_mem (s : ChatState) (cid u : Nat) (conv : Conversation)
    (h : findConversation s cid u = some conv) :
    conv.id = cid ∧ u ∈ conv.participants := by
  unfold findConversation at h
  have hp := List.find?_some h
  simp only [Bool.and_eq_true, beq_iff_eq, decide_eq_true_eq] at hp
  exact hp

/-- The notification batch appended by `createCore`, with the C5 facts. -/
theorem createCore_notifications (s : ChatState) (u : Nat) (conv : Conversation)
    (content : String) (rt pm : Option Nat) (now : Nat)
    (hnd : conv.participants.Nodup) (hu : u ∈ conv.participants) :
    ∃ nn, (createCore s u conv content rt pm now).1.notifications
          = s.notifications ++ nn ∧
      nn.map Notification.recipient = conv.participants.filter (fun p => p ≠ u) ∧
      nn.length = conv.participants.length - 1 ∧
      ∀ n ∈ nn, n.recipient ≠ u := by
  obtain ⟨h1, h2, h3⟩ := fanout_spec s.nextNotificationId u
    (if pm.isSome then "thread_reply" else "message") (some s.nextMessageId)
    (some conv.id) conv.participants hnd hu
  exact ⟨_, by simp [createCore], h1, h2, h3⟩

/-- Claim C5 (counterexample): a WebSocket message event is a qualifying
durable chat event (a plain message creation, here in a conversation with
two participants), yet the handler persists zero notifications instead of
`|P| - 1 = 1`. -/
theorem c5_counterexample :
    (wsSaveMessage SB 1 1 "" none none 9).map
        (fun r => r.1.notifications.length) = some 0 ∧
    c1.participants.length - 1 = 1 := by decide

/-- Claim C5 (amended): the REST create endpoint and the forward endpoint
each persist exactly `|participants| - 1` notifications — one per
participant other than the actor, none addressed to the actor — but the
WebSocket message path persists none at all. -/
theorem notification_fanout_counts :
    (∀ (s : ChatState) (u : Nat) (conv : Conversation) (content : String)
        (rid popt : Option Nat) (now : Nat) (msg : Message),
      findConversation s conv.id u = some conv →
      conv.participants.Nodup →
      (messageCreate s u (some conv.id) content rid popt now).2 = .created msg →
      ∃ nn, (messageCreate s u (some conv.id) content rid popt now).1.notifications
            = s.notifications ++ nn ∧
        nn.map Notification.recipient = conv.participants.filter (fun p => p ≠ u) ∧
        nn.length = conv.participants.length - 1 ∧
        ∀ n ∈ nn, n.recipient ≠ u) ∧
    (∀ (s : ChatState) (u mid tcid now : Nat) (orig : Message)
        (target : Conversation),
      findUserMessage s u mid = some orig →
      findConversation s tcid u = some target →
      target.participants.Nodup →
      ∃ nn, (forwardView s u mid (some tcid) now).1.notifications
            = s.notifications ++ nn ∧
        nn.map Notification.recipient = target.participants.filter (fun p => p ≠ u) ∧
        nn.length = target.participants.length - 1 ∧
        ∀ n ∈ nn, n.recipient ≠ u) ∧
    (∀ (s : ChatState) (sid cid : Nat) (content : String) (rto : Option Nat)
        (att : Option String) (now : Nat) (s2 : ChatState) (msg : Message),
      wsSaveMessage s sid cid content rto att now = some (s2, msg) →
      s2.notifications = s.notifications) := by
  refine ⟨?_, ?_, ?_⟩
  · intro s u conv content rid popt now msg hconv hnd hcr
    have hu := (findConversation_mem s conv.id u conv hconv).2
    simp only [messageCreate, hconv] at hcr ⊢
    cases popt with
    | none => exact createCore_notifications s u conv content _ none now hnd hu
    | some pid =>
      rcases hf : findMessage s pid with _ | pm
      · simp only [hf] at hcr ⊢
        exact createCore_notifications s u conv content _ none now hnd hu
      · simp only [hf] at hcr ⊢
        by_cases hc : pm.conversation ≠ conv.id
        · rw [if_pos hc] at hcr
          simp at hcr
        · rw [if_neg hc]
          exact createCore_notifications s u conv content _ (some pm.id) now hnd hu
  · intro s u mid tcid now orig target hm hc hnd
    have hu := (findConversation_mem s tcid u target hc).2
    obtain ⟨h1, h2, h3⟩ := fanout_spec s.nextNotificationId u "forwarded_message"
      (some s.nextMessageId) (some target.id) target.participants hnd hu
    simp only [forwardView, hm, hc]
    exact ⟨_, rfl, h1, h2, h3⟩
  · intro s sid cid content rto att now s2 msg h
    simp only [wsSaveMessage] at h
    split at h
    · exact Option.noConfusion h
    · split at h
      · exact Option.noConfusion h
      · split at h
        · exact Option.noConfusion h
        · simp only [Option.some.injEq, Prod.mk.injEq] at h
          rw [← h.1]

/-- Witness for the C5 theorem on the base store: user 1 posts in
conversation 1 (one notification, to user 2), forwards message 10 to
conversation 3 (one notification, to user 3), and a WebSocket save leaves
the notification table untouched. -/
theorem notification_fanout_counts_witness :
    (∃ nn, (messageCreate SB 1 (some c1.id) "" none none 9).1.notifications
          = SB.notifications ++ nn ∧
      nn.map Notification.recipient = c1.participants.filter (fun p => p ≠ 1) ∧
      nn.length = c1.participants.length - 1 ∧
      ∀ n ∈ nn, n.recipient ≠ 1) ∧
    (∃ nn, (forwardView SB 1 10 (some c3.id) 9).1.notifications
          = SB.notifications ++ nn ∧
      nn.map Notification.recipient = c3.participants.filter (fun p => p ≠ 1) ∧
      nn.length = c3.participants.length - 1 ∧
      ∀ n ∈ nn, n.recipient ≠ 1) ∧
    SW.notifications = SB.notifications :=
  ⟨notification_fanout_counts.1 SB 1 c1 "" none none 9 MW (by decide) (by decide)
      (by decide),
   notification_fanout_counts.2.1 SB 1 10 c3.id 9 m10 c3 (by decide) (by decide)
     (by decide),
   notification_fanout_counts.2.2 SB 1 1 "" none none 9 SW MW (by decide)⟩

/-- Claim C6: forwarding is non-mutating — on success the message table
becomes the old table (every existing row, the origin included, byte for
byte unchanged) plus one new row whose `forwarded_from` is the origin's id
and whose `parent_message` and `reply_to` are unset. -/
theorem forward_frame (s : ChatState) (u mid tcid now : Nat) (orig : Message)
    (target : Conversation)
    (hm : findUserMessage s u mid = some orig)
    (hc : findConversation s tcid u = some target) :
    ∃ s2 fm, forwardView s u mid (some tcid) now = (s2, .created fm) ∧
      s2.messages = s.messages ++ [fm] ∧
      s2.conversations = s.conversations ∧
      fm.forwarded_from = some orig.id ∧
      fm.parent_message = none ∧ fm.reply_to = none ∧
      fm.conversation = target.id ∧ fm.is_forwarded = true := by
  simp only [forwardView, hm, hc]
  exact ⟨_, _, rfl, rfl, rfl, rfl, rfl, rfl, rfl, rfl⟩

/-- Witness for the C6 theorem: user 1 forwards message 10 into
conversation 3. -/
theorem forward_frame_witness :
    ∃ s2 fm, forwardView SB 1 10 (some c3.id) 9 = (s2, .created fm) ∧
      s2.messages = SB.messages ++ [fm] ∧
      s2.conversations = SB.conversations ∧
      fm.forwarded_from = some m10.id ∧
      fm.parent_message = none ∧ fm.reply_to = none ∧
      fm.conversation = c3.id ∧ fm.is_forwarded = true :=
  forward_frame SB 1 10 c3.id 9 m10 c3 (by decide) (by decide)

/-- Claim C7 (counterexample): user 1 forwards message 10 to conversation 2,
whose participants are 2 and 3 — the endpoint answers 404 Not Found, not
403 Forbidden (the store is left unchanged). -/
theorem c7_counterexample :
    forwardView SB 1 10 (some 2) 9 = (SB, ForwardResult.notFound) ∧
    ForwardResult.notFound ≠ ForwardResult.forbidden := by decide

/-- Claim C7 (amended): when the requester participates in no conversation
with the target id, the forward endpoint fails with 404 Not Found — the
target lookup is scoped to the requester's conversations — and the store is
untouched: no forwarded message and no notification is created. -/
theorem forward_nonparticipant_not_found (s : ChatState) (u mid tcid now : Nat)
    (h : ∀ c ∈ s.conversations, c.id = tcid → u ∉ c.participants) :
    forwardView s u mid (some tcid) now = (s, .notFound) := by
  have hf : findConversation s tcid u = none := by
    unfold findConversation
    rw [List.find?_eq_none]
    intro c hc
    simp only [Bool.and_eq_true, beq_iff_eq, decide_eq_true_eq, not_and]
    intro hid
    exact h c hc hid
  rcases hm : findUserMessage s u mid with _ | orig
  · simp only [forwardView, hm]
  · simp only [forwardView, hm, hf]

/-- Witness for the C7 theorem: user 1 against conversation 2 of the base
store. -/
theorem forward_nonparticipant_not_found_witness :
    forwardView SB 1 10 (some 2) 9 = (SB, .notFound) :=
  forward_nonparticipant_not_found SB 1 10 2 9 (by decide)

/-- Claim C4 (counterexample): called on the root message 10 (which has a
reply, message 11), `get_thread_messages` does not contain the root — it
returns the replies only, so the result is not root plus children. -/
theorem c4_counterexample : m10 ∉ m10.get_thread_messages SB := by decide

/-- Claim C4 (amended): `get_thread_messages` returns messages sorted by
ascending timestamp; called on a thread reply it holds exactly the root
plus all of the root's direct children, but called on a root message it
holds only the direct children — the root itself is excluded. -/
theorem get_thread_messages_spec (s : ChatState) (m : Message) :
    List.Sorted tsLE (m.get_thread_messages s) ∧
    ∀ x : Message,
      x ∈ m.get_thread_messages s ↔ x ∈ s.messages ∧ threadPred m x := by
  constructor
  · unfold Message.get_thread_messages orderByTimestamp
    cases m.parent_message <;> exact List.sorted_insertionSort tsLE _
  · intro x
    unfold Message.get_thread_messages orderByTimestamp threadPred
    cases m.parent_message with
    | none =>
      rw [(List.perm_insertionSort tsLE _).mem_iff, List.mem_filter]
      simp
    | some pid =>
      rw [(List.perm_insertionSort tsLE _).mem_iff, List.mem_filter]
      simp

/-- Claim C2 (counterexample): user 1 has two open presence connections in
`SBp`; disconnecting just one marks the user offline even though the other
connection is still open — the claim's "still online after closing one of
two" fails because there is no reference counting. -/
theorem c2_counterexample :
    (presenceDisconnect SBp 1 5).bind (fun s => onlineOf s 1) = some false ∧
    (presenceDisconnect SBp 1 5).map ChatState.connections = some [1] := by
  decide

/-- `offlineFn` keeps user ids, so the user lookup commutes with the bulk
update of `set_user_offline`. -/
theorem find_map_offlineFn (uid now : Nat) (l : List User) :
    (l.map (offlineFn uid now)).find? (fun v => v.id == uid) =
      (l.find? (fun v => v.id == uid)).map (offlineFn uid now) := by
  induction l with
  | nil => rfl
  | cons a t ih =>
    by_cases h : a.id = uid
    · simp [List.find?, offlineFn, h]
    · have hb : (a.id == uid) = false := beq_eq_false_iff_ne.mpr h
      simp [List.find?, offlineFn, h, hb, ih]

/-- Claim C2 (amended): every presence disconnect of an existing user marks
the user offline and stamps `last_seen` with the disconnect time, no matter
how many other connections of the same user remain open — there is no
reference counting.  In particular disconnecting the second of two
connections also leaves the user offline with a non-null `last_seen`. -/
theorem presence_disconnect_offline (s : ChatState) (uid now : Nat) (v : User)
    (h : s.users.find? (fun w => w.id == uid) = some v) :
    ∃ s2, presenceDisconnect s uid now = some s2 ∧
      onlineOf s2 uid = some false ∧ lastSeenOf s2 uid = some (some now) ∧
      s2.connections = s.connections.erase uid := by
  have hvid : v.id = uid := by
    have hp := List.find?_some h
    simpa using hp
  unfold presenceDisconnect set_user_offline
  simp only [h]
  refine ⟨_, rfl, ?_, ?_, rfl⟩
  · unfold onlineOf
    simp only [find_map_offlineFn, h, Option.map_some]
    simp [offlineFn, hvid]
  · unfold lastSeenOf
    simp only [find_map_offlineFn, h, Option.map_some]
    simp [offlineFn, hvid]

/-- Witness for the C2 theorem: user 1, holding two open connections,
disconnects one and is immediately offline with `last_seen = 5`. -/
theorem presence_disconnect_offline_witness :
    ∃ s2, presenceDisconnect SBp 1 5 = some s2 ∧
      onlineOf s2 1 = some false ∧ lastSeenOf s2 1 = some (some 5) ∧
      s2.connections = SBp.connections.erase 1 :=
  presence_disconnect_offline SBp 1 5 u1 (by decide)

end WhatsMeUp
